import Mathlib

/-!
Verification of the synthetic-pair + motion-vector supervision pipeline of
`src/data/synth_dataset_me.py` (classes `Warper`, `MEHandler`, `SynthDatasetME`).

The Python code is shallowly embedded: exact rationals stand for the float
arithmetic, Python `int()` is truncation toward zero, Python `//` is floor
division (`Int.fdiv`), Python/NumPy slices are modelled index-for-index, and
the external motion-estimation engine (`pythonME.me.ME`) is an abstract
stateful black box passed in as a parameter (`MEEngine`).  Randomness is made
explicit: every `np.random` draw of `Warper.__init__` becomes an argument, and
the trigonometric kernel of `cv2.getRotationMatrix2D` is abstracted by the
function parameters `cosd`/`sind` (cosine/sine in degrees).
-/

/-- Python `int(q)` on an exact rational: truncation toward zero. -/
def pyInt (q : ℚ) : ℤ := if 0 ≤ q then ⌊q⌋ else ⌈q⌉

/-- Clamp one endpoint of a Python slice `l[a:b]` into `[0, len]`:
a negative index counts from the end of the list. -/
def pyIdx (len : ℕ) (i : ℤ) : ℕ :=
  if i < 0 then ((len : ℤ) + i).toNat else min i.toNat len

/-- Python slice `l[start:stop]` with step 1. -/
def pySlice (start stop : ℤ) (l : List γ) : List γ :=
  (l.take (pyIdx l.length stop)).drop (pyIdx l.length start)

/-- NumPy basic slice `x[::4]` along one axis: every 4th element starting at
offset 0. -/
def every4 : List γ → List γ
  | [] => []
  | [a] => [a]
  | [a, _] => [a]
  | [a, _, _] => [a]
  | a :: _ :: _ :: _ :: rest => a :: every4 rest

/-- The 2×3 affine matrix `self.mat` of `Warper` (row-major entries). -/
structure Mat23 where
  m00 : ℚ
  m01 : ℚ
  m02 : ℚ
  m10 : ℚ
  m11 : ℚ
  m12 : ℚ
deriving DecidableEq

/-- State of a successfully constructed `Warper`
(`src/data/synth_dataset_me.py`, lines 15-54). -/
structure Warper where
  H : ℕ
  W : ℕ
  H_off : ℤ
  W_off : ℤ
  mat : Mat23
  theta : List ℚ
deriving DecidableEq

/-- The branch condition of line 30, `np.random.randint(0, 5) == 4`, as a
function of the drawn selector `b ∈ {0,…,4}`. -/
def identityBranch (b : ℕ) : Bool := b == 4

/-- `Warper.__init__` (lines 16-45).  The random draws are explicit arguments:
`u_tx` is the `np.random.rand(1)` draw of line 29 (uniform on `[0,1)`), `b`
the `np.random.randint(0, 5)` draw of line 30, and `u_rot`, `u_scale`,
`u_shift` the three `np.random.rand()` draws of lines 35-37.  `cosd`/`sind`
abstract the degree-based cosine/sine used by `cv2.getRotationMatrix2D` about
the centre `(W//2, H//2)` with the OpenCV matrix layout.  Line 20 of the
source sets `self.add_ty` (not `self.add_tx`), so the read of `self.add_tx`
at line 43 raises `AttributeError` whenever the model tag is
`"affine_simple"`; the embedding models the attribute as an `Option Bool`
that is only populated by the `"affine_simple_4"` branch. -/
def Warper.init (cosd sind : ℚ → ℚ) (H W : ℕ) (geometric_model : String)
    (crop : ℚ) (u_tx : ℚ) (b : ℕ) (u_rot u_scale u_shift : ℚ) :
    Except String Warper :=
  if geometric_model = "affine_simple_4" ∨ geometric_model = "affine_simple" then
    let add_tx : Option Bool :=
      if geometric_model = "affine_simple_4" then some true else none
    let H_off : ℤ := (pyInt ((H : ℚ) * crop)).fdiv 2
    let W_off : ℤ := (pyInt ((W : ℚ) * crop)).fdiv 2
    let tx : ℚ := (2 * u_tx - 1) * (1 / 10) * (W : ℚ)
    let mt : Mat23 × List ℚ :=
      if identityBranch b then
        (⟨1, 0, tx, 0, 1, 0⟩, [0, 1, 0, tx / (W : ℚ)])
      else
        let rotate_value : ℚ := (u_rot - 1 / 2) * 2 * (3 / 4)
        let scale_value : ℚ := 1 + (u_scale - 1 / 2) * 2 * (15 / 1000)
        let shift_value : ℚ := (u_shift - 1 / 2) * 2 * 10
        let cx : ℚ := ((W / 2 : ℕ) : ℚ)
        let cy : ℚ := ((H / 2 : ℕ) : ℚ)
        let alpha : ℚ := scale_value * cosd rotate_value
        let beta : ℚ := scale_value * sind rotate_value
        (⟨alpha, beta, (1 - alpha) * cx - beta * cy + tx,
          -beta, alpha, beta * cx + (1 - alpha) * cy + shift_value⟩,
         [rotate_value, scale_value, shift_value / (H : ℚ), tx / (W : ℚ)])
    match add_tx with
    | none => Except.error "AttributeError"
    | some t =>
      if t then Except.ok ⟨H, W, H_off, W_off, mt.1, mt.2⟩
      else Except.ok ⟨H, W, H_off, W_off, { mt.1 with m02 := 0 }, mt.2.take 3⟩
  else
    Except.error "NotImplementedError"

/-- `Warper.crop` (lines 47-48): `img[self.H_off:-self.H_off,
self.W_off:-self.W_off]` on an image stored as a list of rows. -/
def Warper.crop (w : Warper) (img : List (List γ)) : List (List γ) :=
  (pySlice w.H_off (-w.H_off) img).map fun row => pySlice w.W_off (-w.W_off) row

/-- `Warper.get_theta` (lines 53-54). -/
def Warper.get_theta (w : Warper) : List ℚ := w.theta

/-- The external motion-estimation engine `pythonME.me.ME`, treated as a black
box: `init W H loss_metric` is the constructor `ME(W, H, loss_metric=...)`
producing an initial internal state, and `estimate s cur ref` is
`EstimateME(cur_img, ref_img)` on state `s`, returning the raw motion field
together with the mutated state. -/
structure MEEngine (σ α Img : Type) where
  init : ℤ → ℤ → String → σ
  estimate : σ → Img → Img → α × σ

/-- State of an `MEHandler` (lines 57-64): the four constructor scalars plus
the internal states of the two owned estimator handles. -/
structure MEHandler (σ : Type) where
  H : ℤ
  W : ℤ
  loss_metric : String
  runs_to_warm_up : ℕ
  L2R_ME : σ
  R2L_ME : σ

/-- `MEHandler.__init__` (lines 58-64): stores the scalars and constructs the
two estimator handles as `ME(W, H, loss_metric=loss_metric)`. -/
def MEHandler.init (E : MEEngine σ α Img) (H W : ℤ) (loss_metric : String)
    (runs_to_warm_up : ℕ) : MEHandler σ :=
  ⟨H, W, loss_metric, runs_to_warm_up,
   E.init W H loss_metric, E.init W H loss_metric⟩

/-- `MEHandler.warmed_up_me` (lines 66-69): run `EstimateME` on the same
`(cur_img, ref_img)` pair `runs_to_warm_up - 1` times in the loop, then once
more, returning only the final call's result (with the threaded state). -/
def MEHandler.warmed_up_me (E : MEEngine σ α Img) (self : MEHandler σ)
    (MEInstance : σ) (cur_img ref_img : Img) : α × σ :=
  E.estimate
    ((fun s => (E.estimate s cur_img ref_img).2)^[self.runs_to_warm_up - 1]
      MEInstance)
    cur_img ref_img

/-- The NumPy subsampling `x[..., ::4, ::4]` of line 77 applied to a
channels × rows × cols field. -/
def subsample4 (field : List (List (List β))) : List (List (List β)) :=
  field.map fun plane => (every4 plane).map every4

/-- Decides whether `f` is a channels × rows × cols grid of shape
`(c, h, w)`. -/
def hasShape (f : List (List (List β))) (c h w : ℕ) : Bool :=
  f.length == c && f.all fun plane =>
    plane.length == h && plane.all fun row => row.length == w

/-- `MEHandler.calculate_disparity` (lines 71-77): forward field from
`(img_l, img_r)` on the `L2R_ME` handle, backward field from `(img_r, img_l)`
on the `R2L_ME` handle, each subsampled by `[..., ::4, ::4]`; the mutated
handle states are threaded back into the handler. -/
def MEHandler.calculate_disparity (E : MEEngine σ (List (List (List β))) Img)
    (self : MEHandler σ) (img_l img_r : Img) :
    (List (List (List β)) × List (List (List β))) × MEHandler σ :=
  let l2r := MEHandler.warmed_up_me E self self.L2R_ME img_l img_r
  let r2l := MEHandler.warmed_up_me E self self.R2L_ME img_r img_l
  ((subsample4 l2r.1, subsample4 r2l.1),
   { self with L2R_ME := l2r.2, R2L_ME := r2l.2 })

/-- `pickle_ME` (lines 84-85): the reduction registered with
`copyreg.pickle`, capturing exactly the four constructor scalars. -/
def pickle_ME (me : MEHandler σ) : ℤ × ℤ × String × ℕ :=
  (me.H, me.W, me.loss_metric, me.runs_to_warm_up)

/-- Reconstruction performed by unpickling: apply the `MEHandler` constructor
to the four scalars captured by `pickle_ME`. -/
def unpickle_ME (E : MEEngine σ α Img) (t : ℤ × ℤ × String × ℕ) :
    MEHandler σ :=
  MEHandler.init E t.1 t.2.1 t.2.2.1 t.2.2.2

/-- State of a constructed `SynthDatasetME` (lines 112-133) restricted to the
fields the verified claims are about.  A manifest row is modelled by its
first column (the image file name), which is the only column the dataset
reads (`self.train_data.iloc[:,0]`). -/
structure SynthDatasetME (σ : Type) where
  train_data : List String
  dataset_size : ℤ
  img_names : List String
  geometric_model : String
  crop : ℚ
  me_handler : MEHandler σ

/-- `SynthDatasetME.__init__` (lines 112-133): optional truncation of the
manifest rows via `min((dataset_size, len(train_data)))` and the Python slice
`iloc[0:dataset_size, :]`, then construction of the single `MEHandler` with
dimensions `int(h - h*crop)` × `int(w - w*crop)`, loss metric
`'colorindependent'` and warm-up count 2. -/
def SynthDatasetME.init (E : MEEngine σ α Img) (rows : List String)
    (h w : ℕ) (crop : ℚ) (geometric_model : String) (dataset_size : ℤ) :
    SynthDatasetME σ :=
  let td := if dataset_size ≠ 0 then
      pySlice 0 (min dataset_size (rows.length : ℤ)) rows
    else rows
  { train_data := td
    dataset_size := dataset_size
    img_names := td
    geometric_model := geometric_model
    crop := crop
    me_handler := MEHandler.init E (pyInt ((h : ℚ) - (h : ℚ) * crop))
      (pyInt ((w : ℚ) - (w : ℚ) * crop)) "colorindependent" 2 }

/-- `SynthDatasetME.__len__` (lines 135-136). -/
def SynthDatasetME.len (d : SynthDatasetME σ) : ℕ := d.train_data.length

/-- Mock engine for counting estimator invocations: its state records every
`(cur, ref)` argument pair ever passed to `EstimateME` (most recent first)
and each call returns its own 0-based invocation index. -/
def traceEngine (Img : Type) : MEEngine (List (Img × Img)) ℕ Img :=
  ⟨fun _ _ _ => [], fun s cur ref => (s.length, (cur, ref) :: s)⟩

/-- Trivial concrete engine used to instantiate dataset-level statements. -/
def unitEngine : MEEngine Unit Unit Unit :=
  ⟨fun _ _ _ => (), fun s _ _ => ((), s)⟩

/-- A constant 2 × 16 × 16 motion field. -/
def field16 : List (List (List ℤ)) :=
  List.replicate 2 (List.replicate 16 (List.replicate 16 0))

/-- Concrete engine returning the constant field `field16` on every call. -/
def constFieldEngine : MEEngine Unit (List (List (List ℤ))) Unit :=
  ⟨fun _ _ _ => (), fun s _ _ => (field16, s)⟩

/-- Concrete 16 × 16 handler over `constFieldEngine`. -/
def handler16 : MEHandler Unit :=
  MEHandler.init constFieldEngine 16 16 "colorindependent" 2

/-- A concrete ten-row manifest (first columns only). -/
def rows10 : List String :=
  ["img0.jpg", "img1.jpg", "img2.jpg", "img3.jpg", "img4.jpg",
   "img5.jpg", "img6.jpg", "img7.jpg", "img8.jpg", "img9.jpg"]

/-- A concrete 256 × 256 image. -/
def img256 : List (List ℕ) := List.replicate 256 (List.replicate 256 0)

/-- The `Warper` produced by `Warper.__init__(256, 256, 'affine_simple_4',
crop=0.2)` when the branch selector draws 4 and the shift draw is `1/2`. -/
def wp256 : Warper := ⟨256, 256, 25, 25, ⟨1, 0, 0, 0, 1, 0⟩, [0, 1, 0, 0]⟩

/-- The `Warper` produced by `Warper.__init__(1, 1, 'affine_simple_4',
crop=0)` when the branch selector draws 4 and the shift draw is `1/2`. -/
def wp1 : Warper := ⟨1, 1, 0, 0, ⟨1, 0, 0, 0, 1, 0⟩, [0, 1, 0, 0]⟩

/-! ## Helper lemmas -/

theorem every4_length (l : List γ) : (every4 l).length = (l.length + 3) / 4 := by
  induction l using every4.induct <;> simp [every4, *] <;> omega

theorem every4_subset (l : List γ) (x : γ) (hx : x ∈ every4 l) : x ∈ l := by
  induction l using every4.induct <;> simp_all [every4] <;> tauto

theorem pySlice_sym (a : ℕ) (l : List γ) (ha : 1 ≤ a) (hl : 2 * a ≤ l.length) :
    pySlice (a : ℤ) (-(a : ℤ)) l = (l.drop a).take (l.length - 2 * a) := by
  unfold pySlice pyIdx
  have h1 : ¬((a : ℤ) < 0) := by omega
  have h2 : (-(a : ℤ)) < 0 := by omega
  rw [if_pos h2, if_neg h1]
  have e1 : ((l.length : ℤ) + -(a : ℤ)).toNat = l.length - a := by omega
  have e2 : min (a : ℤ).toNat l.length = a := by omega
  rw [e1, e2, List.drop_take]
  congr 1
  omega

theorem pySlice_sym_int (z : ℤ) (l : List γ) (h1 : 1 ≤ z)
    (h2 : 2 * z ≤ (l.length : ℤ)) :
    pySlice z (-z) l = (l.drop z.toNat).take (l.length - 2 * z.toNat) := by
  have hz : ((z.toNat : ℕ) : ℤ) = z := Int.toNat_of_nonneg (by omega)
  calc pySlice z (-z) l
      = pySlice (z.toNat : ℤ) (-(z.toNat : ℤ)) l := by rw [hz]
    _ = (l.drop z.toNat).take (l.length - 2 * z.toNat) :=
      pySlice_sym _ l (by omega) (by omega)

theorem init4_branch4 (cosd sind : ℚ → ℚ) (H W : ℕ) (crop u_tx : ℚ)
    (u_rot u_scale u_shift : ℚ) :
    Warper.init cosd sind H W "affine_simple_4" crop u_tx 4 u_rot u_scale u_shift
      = Except.ok ⟨H, W, (pyInt ((H : ℚ) * crop)).fdiv 2,
          (pyInt ((W : ℚ) * crop)).fdiv 2,
          ⟨1, 0, (2 * u_tx - 1) * (1 / 10) * (W : ℚ), 0, 1, 0⟩,
          [0, 1, 0, (2 * u_tx - 1) * (1 / 10) * (W : ℚ) / (W : ℚ)]⟩ := rfl

theorem init_ok_offsets (cosd sind : ℚ → ℚ) (H W : ℕ) (gm : String)
    (crop u_tx : ℚ) (b : ℕ) (u_rot u_scale u_shift : ℚ) (wp : Warper)
    (hok : Warper.init cosd sind H W gm crop u_tx b u_rot u_scale u_shift
      = Except.ok wp) :
    wp.H_off = (pyInt ((H : ℚ) * crop)).fdiv 2 ∧
    wp.W_off = (pyInt ((W : ℚ) * crop)).fdiv 2 := by
  by_cases h4 : gm = "affine_simple_4"
  · subst h4
    rcases Bool.eq_false_or_eq_true (identityBranch b) with hb | hb <;>
      simp [Warper.init, hb] at hok <;> simp [← hok]
  · by_cases h3 : gm = "affine_simple"
    · subst h3
      simp [Warper.init, h4] at hok
    · simp [Warper.init, h4, h3] at hok

theorem hasShape_subsample4 (f : List (List (List β))) (c h w : ℕ)
    (hf : hasShape f c h w = true) :
    hasShape (subsample4 f) c ((h + 3) / 4) ((w + 3) / 4) = true := by
  simp only [hasShape, subsample4, List.length_map, List.all_eq_true,
    Bool.and_eq_true, beq_iff_eq] at hf ⊢
  obtain ⟨hc, hpl⟩ := hf
  refine ⟨hc, ?_⟩
  intro plane hplane
  obtain ⟨p, hp, rfl⟩ := List.mem_map.mp hplane
  obtain ⟨hlen, hrows⟩ := hpl p hp
  constructor
  · rw [List.length_map, every4_length, hlen]
  · intro row hrow
    obtain ⟨r, hr, rfl⟩ := List.mem_map.mp hrow
    rw [every4_length, hrows r (every4_subset p r hr)]

theorem traceEngine_iterate (Img : Type) (cur ref : Img) (k : ℕ)
    (s0 : List (Img × Img)) :
    (fun s => ((traceEngine Img).estimate s cur ref).2)^[k] s0
      = List.replicate k (cur, ref) ++ s0 := by
  induction k with
  | zero => simp
  | succ k ih =>
    rw [Function.iterate_succ_apply', ih]
    simp [traceEngine, List.replicate_succ]

/-! ## Claims -/

/-- Claim C1 (refuted, code bug): constructing a `Warper` with the tag
`"affine_simple"` never succeeds — line 20 of the source sets `self.add_ty`
instead of `self.add_tx`, so the unconditional read of `self.add_tx` at line
43 raises `AttributeError` for every H, W and every random draw; the
`"affine_simple_4"` half of the claim does hold: construction succeeds with a
4-component theta. -/
theorem C1_affine_simple_attribute_error (cosd sind : ℚ → ℚ) (H W : ℕ)
    (crop u_tx : ℚ) (b : ℕ) (u_rot u_scale u_shift : ℚ) :
    Warper.init cosd sind H W "affine_simple" crop u_tx b u_rot u_scale u_shift
      = Except.error "AttributeError" ∧
    ∃ wp, Warper.init cosd sind H W "affine_simple_4" crop u_tx b
        u_rot u_scale u_shift = Except.ok wp ∧ wp.theta.length = 4 := by
  refine ⟨rfl, _, rfl, ?_⟩
  cases hb : identityBranch b <;> simp [hb]

/-- Claim C2 (refuted, code bug): the builder sizes its single `MEHandler` to
`int(h - h*crop)` (line 133), which is 204 for `h = w = 256`, `crop = 0.2`,
while the post-crop image dimensions `h - 2*H_off` it then feeds the handler
are 206; the claimed equality fails. -/
theorem C2_me_handler_size_mismatch (E : MEEngine σ α Img) (rows : List String) :
    (SynthDatasetME.init E rows 256 256 (1 / 5) "affine_simple_4" 0).me_handler.H
      = 204 ∧
    (SynthDatasetME.init E rows 256 256 (1 / 5) "affine_simple_4" 0).me_handler.W
      = 204 ∧
    (256 : ℤ) - 2 * (pyInt ((256 : ℚ) * (1 / 5))).fdiv 2 = 206 ∧
    (SynthDatasetME.init E rows 256 256 (1 / 5) "affine_simple_4" 0).me_handler.H
      ≠ (256 : ℤ) - 2 * (pyInt ((256 : ℚ) * (1 / 5))).fdiv 2 := by
  have e1 : pyInt (((256 : ℕ) : ℚ) - ((256 : ℕ) : ℚ) * (1 / 5)) = 204 := by
    norm_num [pyInt]
  have e2 : (pyInt ((256 : ℚ) * (1 / 5))).fdiv 2 = 25 := by
    have h51 : pyInt ((256 : ℚ) * (1 / 5)) = 51 := by norm_num [pyInt]
    rw [h51]; decide
  have eH : (SynthDatasetME.init E rows 256 256 (1 / 5) "affine_simple_4"
      0).me_handler.H = pyInt (((256 : ℕ) : ℚ) - ((256 : ℕ) : ℚ) * (1 / 5)) := rfl
  have eW : (SynthDatasetME.init E rows 256 256 (1 / 5) "affine_simple_4"
      0).me_handler.W = pyInt (((256 : ℕ) : ℚ) - ((256 : ℕ) : ℚ) * (1 / 5)) := rfl
  refine ⟨?_, ?_, ?_, ?_⟩
  · rw [eH, e1]
  · rw [eW, e1]
  · rw [e2]; decide
  · rw [eH, e1, e2]; decide

/-- Claim C3: one `warmed_up_me` call with warm-up count `n ≥ 1` invokes the
underlying estimator exactly `n` consecutive times, all on the identical
`(cur, ref)` pair, and returns only the last invocation's result — over the
tracing mock engine whose state logs every argument pair and whose output is
the 0-based invocation index. -/
theorem C3_warmed_up_me_count (Img : Type) (cur ref : Img) (n : ℕ)
    (hn : 1 ≤ n) (s0 : List (Img × Img)) (H W : ℤ) (loss : String) :
    MEHandler.warmed_up_me (traceEngine Img)
        (MEHandler.init (traceEngine Img) H W loss n) s0 cur ref
      = (n - 1 + s0.length, List.replicate n (cur, ref) ++ s0) := by
  obtain ⟨m, rfl⟩ : ∃ m, n = m + 1 := ⟨n - 1, by omega⟩
  unfold MEHandler.warmed_up_me
  rw [show (MEHandler.init (traceEngine Img) H W loss (m + 1)).runs_to_warm_up
      = m + 1 from rfl]
  rw [show m + 1 - 1 = m from rfl, traceEngine_iterate]
  simp [traceEngine, List.replicate_succ]

/-- Witness for C3: with warm-up count 3 and an empty trace, the call logs
exactly three invocations on the identical pair `(0, 1)` and returns the
index of the third invocation. -/
theorem C3_warmed_up_me_count_witness :
    MEHandler.warmed_up_me (traceEngine ℕ)
        (MEHandler.init (traceEngine ℕ) 0 0 "colorindependent" 3) [] 0 1
      = (2, [(0, 1), (0, 1), (0, 1)]) :=
  C3_warmed_up_me_count ℕ 0 1 3 (by decide) [] 0 0 "colorindependent"

/-- Claim C4: `calculate_disparity` computes the forward field from
`(img_l, img_r)` on the `L2R_ME` handle and the backward field from
`(img_r, img_l)` on the `R2L_ME` handle, subsamples each by taking every 4th
row and column from offset 0, and — under the engine contract that raw fields
have shape `(2, H, W)` with `16 ∣ H` and `16 ∣ W` — returns a pair of fields
of shape `(2, H/4, W/4)`. -/
theorem C4_calculate_disparity (E : MEEngine σ (List (List (List β))) Img)
    (hnd : MEHandler σ) (Hc Wc : ℕ)
    (hcontract : ∀ s cur ref, hasShape (E.estimate s cur ref).1 2 Hc Wc = true)
    (h16H : 16 ∣ Hc) (h16W : 16 ∣ Wc) (img_l img_r : Img) :
    (MEHandler.calculate_disparity E hnd img_l img_r).1.1
        = subsample4 (MEHandler.warmed_up_me E hnd hnd.L2R_ME img_l img_r).1 ∧
    (MEHandler.calculate_disparity E hnd img_l img_r).1.2
        = subsample4 (MEHandler.warmed_up_me E hnd hnd.R2L_ME img_r img_l).1 ∧
    hasShape ((MEHandler.calculate_disparity E hnd img_l img_r).1.1)
        2 (Hc / 4) (Wc / 4) = true ∧
    hasShape ((MEHandler.calculate_disparity E hnd img_l img_r).1.2)
        2 (Hc / 4) (Wc / 4) = true := by
  have hq : ∀ (inst : σ) (c r : Img),
      hasShape (MEHandler.warmed_up_me E hnd inst c r).1 2 Hc Wc = true :=
    fun inst c r => hcontract _ c r
  have e1 : (Hc + 3) / 4 = Hc / 4 := by obtain ⟨k, rfl⟩ := h16H; omega
  have e2 : (Wc + 3) / 4 = Wc / 4 := by obtain ⟨k, rfl⟩ := h16W; omega
  refine ⟨rfl, rfl, ?_, ?_⟩
  · have h := hasShape_subsample4 _ _ _ _ (hq hnd.L2R_ME img_l img_r)
    rw [e1, e2] at h
    exact h
  · have h := hasShape_subsample4 _ _ _ _ (hq hnd.R2L_ME img_r img_l)
    rw [e1, e2] at h
    exact h

/-- Witness for C4 over the constant-field engine at 16 × 16: both returned
fields have shape `(2, 4, 4)`. -/
theorem C4_calculate_disparity_witness :
    hasShape ((MEHandler.calculate_disparity constFieldEngine handler16
        () ()).1.1) 2 4 4 = true ∧
    hasShape ((MEHandler.calculate_disparity constFieldEngine handler16
        () ()).1.2) 2 4 4 = true := by
  have hf : hasShape field16 2 16 16 = true := by decide
  have h := C4_calculate_disparity constFieldEngine handler16 16 16
    (fun _ _ _ => hf) (by decide) (by decide) () ()
  exact ⟨h.2.2.1, h.2.2.2⟩

/-- Claim C5: the identity branch is selected for exactly one of the five
equally likely selector draws (probability 1/5); on that branch the affine
matrix is a pure horizontal translation (rotation 0, scale 1), theta is
`[0, 1, 0, tx/W]`, and for a shift draw `u_tx ∈ [0, 1)` the horizontal shift
`tx` lies in `[-0.1·W, 0.1·W]`. -/
theorem C5_identity_branch (cosd sind : ℚ → ℚ) (H W : ℕ) (crop u_tx : ℚ)
    (u_rot u_scale u_shift : ℚ) (h0 : 0 ≤ u_tx) (h1 : u_tx < 1) :
    ((Finset.range 5).filter (fun b => identityBranch b = true)).card = 1 ∧
    Warper.init cosd sind H W "affine_simple_4" crop u_tx 4 u_rot u_scale u_shift
      = Except.ok ⟨H, W, (pyInt ((H : ℚ) * crop)).fdiv 2,
          (pyInt ((W : ℚ) * crop)).fdiv 2,
          ⟨1, 0, (2 * u_tx - 1) * (1 / 10) * (W : ℚ), 0, 1, 0⟩,
          [0, 1, 0, (2 * u_tx - 1) * (1 / 10) * (W : ℚ) / (W : ℚ)]⟩ ∧
    -((W : ℚ) / 10) ≤ (2 * u_tx - 1) * (1 / 10) * (W : ℚ) ∧
    (2 * u_tx - 1) * (1 / 10) * (W : ℚ) ≤ (W : ℚ) / 10 := by
  have hW : (0 : ℚ) ≤ (W : ℚ) := Nat.cast_nonneg W
  refine ⟨by decide, init4_branch4 cosd sind H W crop u_tx u_rot u_scale u_shift,
    ?_, ?_⟩
  · nlinarith [mul_nonneg hW h0]
  · nlinarith [mul_nonneg hW (by linarith : (0 : ℚ) ≤ 1 - u_tx)]

/-- Witness for C5 at `u_tx = 0`: the hypotheses hold and the branch-count
conclusion is produced by the theorem. -/
theorem C5_identity_branch_witness :
    0 ≤ (0 : ℚ) ∧ (0 : ℚ) < 1 ∧
    ((Finset.range 5).filter (fun b => identityBranch b = true)).card = 1 :=
  ⟨le_refl 0, zero_lt_one,
   (C5_identity_branch id id 4 10 (1 / 5) 0 0 0 0 (le_refl 0) zero_lt_one).1⟩

/-- Claim C6 (amended): for every constructed `Warper` the crop offsets are
`H_off = int(H*crop)//2` and `W_off = int(W*crop)//2`; and provided both
offsets are at least 1 and fit the image (`2*H_off ≤ H`, `2*W_off ≤ W`),
`crop` removes exactly `H_off` rows from each of top/bottom and `W_off`
columns from each of left/right, so a `H × W` image becomes
`(H - 2*H_off) × (W - 2*W_off)`.  (As literally stated — for *every* crop
fraction — the removal clause fails at zero offsets, see the
counterexample.) -/
theorem C6_crop_offsets (cosd sind : ℚ → ℚ) (H W : ℕ) (gm : String)
    (crop u_tx : ℚ) (b : ℕ) (u_rot u_scale u_shift : ℚ) (wp : Warper)
    (img : List (List γ))
    (hok : Warper.init cosd sind H W gm crop u_tx b u_rot u_scale u_shift
      = Except.ok wp)
    (hH : img.length = H) (hW : ∀ row ∈ img, row.length = W)
    (hH1 : 1 ≤ wp.H_off) (hH2 : 2 * wp.H_off ≤ (H : ℤ))
    (hW1 : 1 ≤ wp.W_off) (hW2 : 2 * wp.W_off ≤ (W : ℤ)) :
    wp.H_off = (pyInt ((H : ℚ) * crop)).fdiv 2 ∧
    wp.W_off = (pyInt ((W : ℚ) * crop)).fdiv 2 ∧
    Warper.crop wp img
      = ((img.drop wp.H_off.toNat).take (H - 2 * wp.H_off.toNat)).map
          (fun row => (row.drop wp.W_off.toNat).take (W - 2 * wp.W_off.toNat)) ∧
    (Warper.crop wp img).length = H - 2 * wp.H_off.toNat := by
  obtain ⟨e1, e2⟩ := init_ok_offsets cosd sind H W gm crop u_tx b
    u_rot u_scale u_shift wp hok
  have hrows : pySlice wp.H_off (-wp.H_off) img
      = (img.drop wp.H_off.toNat).take (img.length - 2 * wp.H_off.toNat) :=
    pySlice_sym_int wp.H_off img hH1 (by omega)
  have hcols : ∀ row ∈ (img.drop wp.H_off.toNat).take
      (img.length - 2 * wp.H_off.toNat),
      pySlice wp.W_off (-wp.W_off) row
        = (row.drop wp.W_off.toNat).take (W - 2 * wp.W_off.toNat) := by
    intro row hrow
    have hmem : row ∈ img := List.drop_subset _ _ (List.take_subset _ _ hrow)
    have hlen : row.length = W := hW row hmem
    rw [pySlice_sym_int wp.W_off row hW1 (by omega), hlen]
  have hcrop : Warper.crop wp img
      = ((img.drop wp.H_off.toNat).take (H - 2 * wp.H_off.toNat)).map
          (fun row => (row.drop wp.W_off.toNat).take (W - 2 * wp.W_off.toNat)) := by
    unfold Warper.crop
    rw [hrows, List.map_congr_left hcols, hH]
  refine ⟨e1, e2, hcrop, ?_⟩
  rw [hcrop]
  simp only [List.length_map, List.length_take, List.length_drop, hH]
  omega

/-- Witness for C6 at the spec scenario: a 256 × 256 image with crop
fraction 0.2 gives offsets 25 and a 206-row crop. -/
theorem C6_crop_offsets_witness :
    (Warper.crop wp256 img256).length = 206 := by
  have hok : Warper.init id id 256 256 "affine_simple_4" (1 / 5) (1 / 2) 4 0 0 0
      = Except.ok wp256 := by
    rw [init4_branch4]
    norm_num [wp256, pyInt, Int.fdiv]
  exact (C6_crop_offsets id id 256 256 "affine_simple_4" (1 / 5) (1 / 2) 4 0 0 0
    wp256 img256 hok (by simp only [img256, List.length_replicate])
    (fun row hrow => by
      rw [List.eq_of_mem_replicate
        (show row ∈ List.replicate 256 (List.replicate 256 0) from hrow)]
      simp only [List.length_replicate])
    (by decide) (by decide) (by decide) (by decide)).2.2.2

/-- Counterexample to claim C6 as literally stated: with crop fraction 0 the
offsets are 0, and `crop` on a 4 × 4 image returns an empty image (0 rows)
rather than removing 0 rows from each side (which would leave 4 rows). -/
theorem C6_crop_offsets_counterexample :
    (Warper.init id id 4 4 "affine_simple_4" 0 (1 / 2) 4 0 0 0).map
        (fun wp => ((Warper.crop wp
          ([[1, 2, 3, 4], [5, 6, 7, 8], [9, 10, 11, 12], [13, 14, 15, 16]] :
            List (List ℕ))).length, wp.H_off))
      = Except.ok (0, 0) ∧ (0 : ℕ) ≠ 4 - 2 * 0 := by
  have hok : Warper.init id id 4 4 "affine_simple_4" 0 (1 / 2) 4 0 0 0
      = Except.ok ⟨4, 4, 0, 0, ⟨1, 0, 0, 0, 1, 0⟩, [0, 1, 0, 0]⟩ := by
    rw [init4_branch4]
    norm_num [pyInt, Int.fdiv]
  rw [hok]
  exact ⟨rfl, by decide⟩

/-- Claim C7 (amended): when a computed offset is 0, `crop` applies the slice
`[0:-0]`, i.e. `[0:0]`, on that axis: the result is *empty* along that axis
(all rows removed when `H_off = 0`; every surviving row empty when
`W_off = 0`), not the unchanged image; no error is raised. -/
theorem C7_crop_zero_offset (cosd sind : ℚ → ℚ) (H W : ℕ) (gm : String)
    (crop u_tx : ℚ) (b : ℕ) (u_rot u_scale u_shift : ℚ) (wp : Warper)
    (img : List (List γ))
    (_hok : Warper.init cosd sind H W gm crop u_tx b u_rot u_scale u_shift
      = Except.ok wp) :
    (wp.H_off = 0 → Warper.crop wp img = []) ∧
    (wp.W_off = 0 → ∀ row ∈ Warper.crop wp img, row = []) := by
  constructor
  · intro h0
    simp [Warper.crop, pySlice, pyIdx, h0]
  · intro h0 row hrow
    obtain ⟨r, hr, rfl⟩ := List.mem_map.mp hrow
    simp [pySlice, pyIdx, h0]

/-- Witness for C7: the warper built with crop fraction 0 on a 1 × 1 image
has zero offsets and its crop empties the image without error. -/
theorem C7_crop_zero_offset_witness :
    Warper.crop wp1 [[(5 : ℕ)]] = [] := by
  have hok : Warper.init id id 1 1 "affine_simple_4" 0 (1 / 2) 4 0 0 0
      = Except.ok wp1 := by
    rw [init4_branch4]
    norm_num [wp1, pyInt, Int.fdiv]
  exact (C7_crop_zero_offset id id 1 1 "affine_simple_4" 0 (1 / 2) 4 0 0 0
    wp1 [[(5 : ℕ)]] hok).1 rfl

/-- Counterexample to claim C7 as stated: with both offsets 0 on a 3 × 3
image, `crop` returns the empty image, not the image unchanged. -/
theorem C7_crop_zero_offset_counterexample :
    (Warper.init id id 3 3 "affine_simple_4" 0 (1 / 2) 4 0 0 0).map
        (fun wp => Warper.crop wp
          ([[1, 2, 3], [4, 5, 6], [7, 8, 9]] : List (List ℕ)))
      = Except.ok ([] : List (List ℕ)) ∧
    ([] : List (List ℕ)) ≠ [[1, 2, 3], [4, 5, 6], [7, 8, 9]] := by
  have hok : Warper.init id id 3 3 "affine_simple_4" 0 (1 / 2) 4 0 0 0
      = Except.ok ⟨3, 3, 0, 0, ⟨1, 0, 0, 0, 1, 0⟩, [0, 1, 0, 0]⟩ := by
    rw [init4_branch4]
    norm_num [pyInt, Int.fdiv]
  rw [hok]
  exact ⟨rfl, by decide⟩

/-- Claim C8: the pickling hook captures exactly the four constructor scalars
`(H, W, loss_metric, runs_to_warm_up)`, and reconstructing from them yields —
for an adapter in its freshly-constructed state — the identical adapter,
hence value-equal `calculate_disparity` output on every input pair. -/
theorem C8_pickle_roundtrip (E : MEEngine σ (List (List (List β))) Img)
    (me : MEHandler σ)
    (hL : me.L2R_ME = E.init me.W me.H me.loss_metric)
    (hR : me.R2L_ME = E.init me.W me.H me.loss_metric) :
    unpickle_ME E (pickle_ME me) = me ∧
    ∀ img_l img_r,
      (MEHandler.calculate_disparity E (unpickle_ME E (pickle_ME me))
          img_l img_r).1
        = (MEHandler.calculate_disparity E me img_l img_r).1 := by
  have h : unpickle_ME E (pickle_ME me) = me := by
    obtain ⟨a, b, c, d, e, f⟩ := me
    simp only at hL hR
    simp [unpickle_ME, pickle_ME, MEHandler.init, hL, hR]
  exact ⟨h, fun img_l img_r => by rw [h]⟩

/-- Witness for C8 over the concrete constant-field adapter. -/
theorem C8_pickle_roundtrip_witness :
    unpickle_ME constFieldEngine (pickle_ME handler16) = handler16 ∧
    (MEHandler.calculate_disparity constFieldEngine
        (unpickle_ME constFieldEngine (pickle_ME handler16)) () ()).1
      = (MEHandler.calculate_disparity constFieldEngine handler16 () ()).1 :=
  ⟨(C8_pickle_roundtrip constFieldEngine handler16 rfl rfl).1,
   (C8_pickle_roundtrip constFieldEngine handler16 rfl rfl).2 () ()⟩

/-- Claim C9 (amended): for every *positive* `dataset_size` the constructed
dataset keeps exactly the first `min(dataset_size, rowCount)` manifest rows in
order, and its length is that minimum.  (For negative nonzero sizes, which
the literal claim also covers, the length is `rowCount + dataset_size`
instead — see the counterexample and claim C10.) -/
theorem C9_size_cap (E : MEEngine σ α Img) (rows : List String) (h w : ℕ)
    (crop : ℚ) (gm : String) (d : ℤ) (hd : 1 ≤ d) :
    ((SynthDatasetME.init E rows h w crop gm d).len : ℤ)
      = min d (rows.length : ℤ) ∧
    (SynthDatasetME.init E rows h w crop gm d).img_names
      = rows.take (min d (rows.length : ℤ)).toNat := by
  have hne : d ≠ 0 := by omega
  have htd : (SynthDatasetME.init E rows h w crop gm d).train_data
      = rows.take (min d (rows.length : ℤ)).toNat := by
    show (if d ≠ 0 then pySlice 0 (min d (rows.length : ℤ)) rows else rows) = _
    rw [if_pos hne]
    unfold pySlice pyIdx
    rw [if_neg (by omega : ¬(min d (rows.length : ℤ) < 0)),
      if_neg (by omega : ¬((0 : ℤ) < 0))]
    simp only [Int.toNat_zero, Nat.zero_min, List.drop_zero]
    congr 1
    omega
  constructor
  · show (((SynthDatasetME.init E rows h w crop gm d).train_data).length : ℤ) = _
    rw [htd, List.length_take]
    omega
  · exact htd

/-- Witness for C9 at the spec scenario: a 10-row manifest with
`dataset_size = 5` keeps exactly rows 0..4 in order. -/
theorem C9_size_cap_witness :
    (SynthDatasetME.init unitEngine rows10 16 16 (1 / 5) "affine_simple_4"
      5).len = 5 ∧
    (SynthDatasetME.init unitEngine rows10 16 16 (1 / 5) "affine_simple_4"
      5).img_names
      = ["img0.jpg", "img1.jpg", "img2.jpg", "img3.jpg", "img4.jpg"] := by
  have h := C9_size_cap unitEngine rows10 16 16 (1 / 5) "affine_simple_4" 5
    (by decide)
  have hmin : min (5 : ℤ) ((rows10.length : ℕ) : ℤ) = 5 := by
    rw [show rows10.length = 10 from rfl]
    decide
  rw [hmin] at h
  constructor
  · exact_mod_cast h.1
  · rw [h.2]; decide

/-- Counterexample to claim C9 as stated for *every nonzero* size: with a
10-row manifest and `dataset_size = -2` the length is 8, not
`min(-2, 10) = -2`. -/
theorem C9_size_cap_counterexample :
    ((SynthDatasetME.init unitEngine rows10 16 16 (1 / 5) "affine_simple_4"
      (-2)).len : ℤ) ≠ min (-2 : ℤ) (rows10.length : ℤ) := by
  have hmin : min (-2 : ℤ) ((rows10.length : ℕ) : ℤ) = -2 :=
    min_eq_left (by rw [show rows10.length = 10 from rfl]; decide)
  have hlen : (SynthDatasetME.init unitEngine rows10 16 16 (1 / 5)
      "affine_simple_4" (-2)).len = 8 := by
    show (if (-2 : ℤ) ≠ 0 then
        pySlice 0 (min (-2 : ℤ) ((rows10.length : ℕ) : ℤ)) rows10
      else rows10).length = 8
    rw [if_pos (by decide : (-2 : ℤ) ≠ 0), hmin]
    decide
  rw [hlen, hmin]
  decide

/-- Claim C10: a negative `dataset_size` is accepted; since
`min(d, rowCount) = d` the Python slice `[0:d]` drops the last `|d|` rows, so
the length becomes `max(rowCount + d, 0)` and the surviving rows are the
leading ones. -/
theorem C10_negative_size (E : MEEngine σ α Img) (rows : List String)
    (h w : ℕ) (crop : ℚ) (gm : String) (d : ℤ) (hd : d < 0) :
    min d (rows.length : ℤ) = d ∧
    (SynthDatasetME.init E rows h w crop gm d).train_data
      = rows.take ((rows.length : ℤ) + d).toNat ∧
    (SynthDatasetME.init E rows h w crop gm d).len
      = ((rows.length : ℤ) + d).toNat ∧
    (SynthDatasetME.init E rows h w crop gm d).img_names
      = rows.take ((rows.length : ℤ) + d).toNat := by
  have hmin : min d (rows.length : ℤ) = d := by omega
  have htd : (SynthDatasetME.init E rows h w crop gm d).train_data
      = rows.take ((rows.length : ℤ) + d).toNat := by
    show (if d ≠ 0 then pySlice 0 (min d (rows.length : ℤ)) rows else rows) = _
    rw [if_pos (by omega : d ≠ 0), hmin]
    unfold pySlice pyIdx
    rw [if_pos hd, if_neg (by omega : ¬((0 : ℤ) < 0))]
    simp only [Int.toNat_zero, Nat.zero_min, List.drop_zero]
  refine ⟨hmin, htd, ?_, htd⟩
  show (((SynthDatasetME.init E rows h w crop gm d).train_data).length : ℕ) = _
  rw [htd, List.length_take]
  omega

/-- Witness for C10: a 10-row manifest with `dataset_size = -3` yields length
7 and drops the last three rows. -/
theorem C10_negative_size_witness :
    (SynthDatasetME.init unitEngine rows10 16 16 (1 / 5) "affine_simple_4"
      (-3)).len = 7 ∧
    (SynthDatasetME.init unitEngine rows10 16 16 (1 / 5) "affine_simple_4"
      (-3)).img_names
      = ["img0.jpg", "img1.jpg", "img2.jpg", "img3.jpg", "img4.jpg",
         "img5.jpg", "img6.jpg"] := by
  have h := C10_negative_size unitEngine rows10 16 16 (1 / 5) "affine_simple_4"
    (-3) (by decide)
  constructor
  · rw [h.2.2.1, show rows10.length = 10 from rfl]
    decide
  · rw [h.2.2.2, show rows10.length = 10 from rfl]
    decide
